import Mathlib

/-!
Shallow embedding of the PSDash subscription-analytics dashboard
(src/app.py) and proofs about its aggregation pipeline.

The dashboard loads a bundled spreadsheet, derives a month column from
the start date, filters by plan type, meal frequency and an inclusive
price range, and computes a catalogue of views: KPI metrics, a monthly
series, a top-10-customers table, a cohort table over the unfiltered
data, a plan-by-frequency crosstab, and revenue by duration bucket.
-/

/-- A calendar date as stored in the Start_Date column. -/
structure Date where
  year : Nat
  month : Nat
  day : Nat
deriving DecidableEq, Repr

/-- Linear key for comparing dates (months and days are below 100). -/
def dateKey (d : Date) : Nat :=
  d.year * 10000 + d.month * 100 + d.day

/-- The YYYY-MM string produced by to_period of M cast to str in load_data. -/
def monthString (d : Date) : String :=
  toString d.year ++ "-" ++ (if d.month < 10 then "0" ++ toString d.month else toString d.month)

/-- One normalized row of the spreadsheet after load_data renames columns. -/
structure Record where
  customer_id : String
  customer_name : String
  plan_type : String
  meal_frequency : String
  start_date : Date
  duration_days : Int
  total_price : Int
deriving DecidableEq, Repr

/-- The derived Month column: always computed from Start_Date. -/
def Record.month (r : Record) : String :=
  monthString r.start_date

/-- The sidebar filter state: multiselect lists and the price slider pair. -/
structure Criteria where
  plan_types : List String
  meal_frequencies : List String
  min_price : Int
  max_price : Int
deriving DecidableEq, Repr

/-- The conjunctive row predicate of the filtered dataframe:
isin over plan types, isin over meal frequencies, and between on
Total_Price, which is inclusive on both bounds. -/
def satisfies (c : Criteria) (r : Record) : Bool :=
  decide (r.plan_type ∈ c.plan_types) &&
  decide (r.meal_frequency ∈ c.meal_frequencies) &&
  decide (c.min_price ≤ r.total_price) &&
  decide (r.total_price ≤ c.max_price)

/-- The filtered dataframe: boolean-mask selection keeps row order. -/
def filterRecords (rs : List Record) (c : Criteria) : List Record :=
  rs.filter (satisfies c)

/-- Total Subscribers KPI: nunique of Customer_ID. -/
def kpiSubscribers (rs : List Record) : Nat :=
  ((rs.map Record.customer_id).dedup).length

/-- Total Revenue KPI: sum of Total_Price. -/
def kpiRevenue (rs : List Record) : Int :=
  (rs.map Record.total_price).sum

/-- Average revenue per row: mean of Total_Price; NaN on an empty frame,
modelled as none. -/
def kpiMean (rs : List Record) : Option Rat :=
  if rs.length = 0 then none else some ((kpiRevenue rs : Rat) / (rs.length : Rat))

/-- Distinct Month values of the frame, sorted ascending as groupby sorts
its keys. -/
def monthKeys (rs : List Record) : List String :=
  List.insertionSort (fun a b => a ≤ b) ((rs.map Record.month).dedup)

/-- The by_month frame: group by Month, nunique of Customer_ID and sum of
Total_Price per group, keys ascending. -/
def byMonth (rs : List Record) : List (String × Nat × Int) :=
  (monthKeys rs).map (fun m =>
    (m, kpiSubscribers (rs.filter (fun r => r.month = m)),
        kpiRevenue (rs.filter (fun r => r.month = m))))

/-- The column names produced by the named aggregation in the top10 cell:
agg with Total_Spend as the sum of Total_Price yields one value column. -/
def top10AggColumns : List String := ["Total_Spend"]

/-- The index level names of the grouped frame in the top10 cell. -/
def top10IndexNames : List String := ["Customer_ID", "Customer_Name"]

/-- The column name passed to sort_values in the top10 cell. -/
def top10SortKey : String := "Total_Spend (INR)"

/-- Groups of the top10 cell: distinct (Customer_ID, Customer_Name) pairs
with the summed Total_Price of each group. -/
def top10Groups (rs : List Record) : List ((String × String) × Int) :=
  ((rs.map (fun r => (r.customer_id, r.customer_name))).dedup).map (fun k =>
    (k, ((rs.filter (fun r => (r.customer_id, r.customer_name) = k)).map Record.total_price).sum))

/-- The top10 cell. sort_values resolves its by argument against the value
columns and the index level names and raises KeyError when it is absent;
otherwise the groups are sorted by descending spend and the first ten kept. -/
def top10 (rs : List Record) : Except String (List ((String × String) × Int)) :=
  if top10AggColumns.contains top10SortKey || top10IndexNames.contains top10SortKey then
    Except.ok ((List.insertionSort (fun a b => b.2 ≤ a.2) (top10Groups rs)).take 10)
  else
    Except.error ("KeyError: " ++ top10SortKey)

/-- Distinct Customer_ID values of the full frame, sorted as groupby sorts
its keys. -/
def custKeys (rs : List Record) : List String :=
  List.insertionSort (fun a b => a ≤ b) ((rs.map Record.customer_id).dedup)

/-- Earliest date of a list, the groupby min; dummy value on an empty list
(groups are never empty). -/
def minDate : List Date → Date
  | [] => ⟨0, 1, 1⟩
  | x :: xs => xs.foldl (fun a b => if dateKey b < dateKey a then b else a) x

/-- First start date of one customer across all of its records. -/
def firstStart (rs : List Record) (cid : String) : Date :=
  minDate ((rs.filter (fun r => r.customer_id = cid)).map Record.start_date)

/-- Cohort month of one customer: month of its minimum start date. -/
def cohortMonthOf (rs : List Record) (cid : String) : String :=
  monthString (firstStart rs cid)

/-- The first frame of the cohort cell: per distinct customer of the FULL
unfiltered frame, the minimum Start_Date. -/
def firstTable (rs : List Record) : List (String × Date) :=
  (custKeys rs).map (fun cid => (cid, firstStart rs cid))

/-- Distinct cohort months, sorted ascending as groupby sorts its keys. -/
def cohortKeys (rs : List Record) : List String :=
  List.insertionSort (fun a b => a ≤ b)
    (((firstTable rs).map (fun p => monthString p.2)).dedup)

/-- The cohort frame: group the first frame by CohortMonth and count
customers per group. -/
def cohort (rs : List Record) : List (String × Nat) :=
  (cohortKeys rs).map (fun m =>
    (m, ((firstTable rs).filter (fun p => monthString p.2 = m)).length))

/-- Distinct Plan_Type labels of the frame, sorted as crosstab sorts them. -/
def rowLabels (rs : List Record) : List String :=
  List.insertionSort (fun a b => a ≤ b) ((rs.map Record.plan_type).dedup)

/-- Distinct Meal_Frequency labels of the frame, sorted as crosstab sorts
them. -/
def colLabels (rs : List Record) : List String :=
  List.insertionSort (fun a b => a ≤ b) ((rs.map Record.meal_frequency).dedup)

/-- The plan-by-frequency count matrix of the crosstab and pivot_table
cells: one row per observed Plan_Type, one cell per observed
Meal_Frequency, counting the records with that plan and that frequency;
combinations with no record give an explicit 0 cell. -/
def crosstabCount (rs : List Record) : List (String × List (String × Nat)) :=
  (rowLabels rs).map (fun p =>
    (p, (colLabels rs).map (fun m =>
      (m, ((rs.filter (fun r => r.plan_type = p)).filter
            (fun r => r.meal_frequency = m)).length))))

/-- The four labels of the pd.cut call for Duration_Days. -/
def durationLabels : List String := ["0-7 days", "8-15 days", "16-30 days", "31+ days"]

/-- pd.cut with bins 0, 7, 15, 31, 100 and right set to False: left-closed,
right-open bins; values below 0 or at least 100 fall outside every bin and
get no category (NaN). -/
def durationCategory (d : Int) : Option String :=
  if 0 ≤ d ∧ d < 7 then some "0-7 days"
  else if 7 ≤ d ∧ d < 15 then some "8-15 days"
  else if 15 ≤ d ∧ d < 31 then some "16-30 days"
  else if 31 ≤ d ∧ d < 100 then some "31+ days"
  else none

/-- The rev_by_dur frame: group by the categorical Duration_Category and
sum Total_Price. Every declared category label appears; rows whose
category is NaN are dropped by groupby. -/
def revByDur (rs : List Record) : List (String × Int) :=
  durationLabels.map (fun lab =>
    (lab, ((rs.filter (fun r => durationCategory r.duration_days = some lab)).map
            Record.total_price).sum))

/-- The revenue_by_plan frame: group by Plan_Type, sum Total_Price. -/
def revenueByPlan (rs : List Record) : List (String × Int) :=
  (rowLabels rs).map (fun p =>
    (p, ((rs.filter (fun r => r.plan_type = p)).map Record.total_price).sum))

/-- The meal_freq_counts frame: value_counts of Meal_Frequency, ordered by
descending count. -/
def mealFreqCounts (rs : List Record) : List (String × Nat) :=
  List.insertionSort (fun a b => b.2 ≤ a.2)
    (((rs.map Record.meal_frequency).dedup).map (fun m =>
      (m, (rs.filter (fun r => r.meal_frequency = m)).length)))

/-- One dashboard session: the bundled PS_Data.xlsx contents and the value
of the upload widget in the sidebar. -/
structure Session where
  bundled : List Record
  uploaded : Option (List Record)

/-- load_data reads the bundled PS_Data.xlsx; it never consults the upload
widget. -/
def load_data (s : Session) : List Record :=
  s.bundled

/-- Every derived view the dashboard renders. The cohort view is computed
from the full frame df; all others from the filtered frame. -/
structure Views where
  filteredRecords : List Record
  subscribers : Nat
  revenue : Int
  avgRevenue : Option Rat
  byMonthView : List (String × Nat × Int)
  mealFreqView : List (String × Nat)
  top10View : Except String (List ((String × String) × Int))
  cohortView : List (String × Nat)
  revenueByPlanView : List (String × Int)
  crosstabView : List (String × List (String × Nat))
  revByDurView : List (String × Int)
deriving Repr

/-- The whole script run as a function of the session and the sidebar
filter state. -/
def dashboardViews (s : Session) (c : Criteria) : Views :=
  { filteredRecords := filterRecords (load_data s) c
    subscribers := kpiSubscribers (filterRecords (load_data s) c)
    revenue := kpiRevenue (filterRecords (load_data s) c)
    avgRevenue := kpiMean (filterRecords (load_data s) c)
    byMonthView := byMonth (filterRecords (load_data s) c)
    mealFreqView := mealFreqCounts (filterRecords (load_data s) c)
    top10View := top10 (filterRecords (load_data s) c)
    cohortView := cohort (load_data s)
    revenueByPlanView := revenueByPlan (filterRecords (load_data s) c)
    crosstabView := crosstabCount (filterRecords (load_data s) c)
    revByDurView := revByDur (filterRecords (load_data s) c) }

/-- C3: duration bucketing is left-closed and right-open: the boundary
values 0, 7, 15 and 31 fall into the bin whose left edge they equal. -/
theorem duration_boundaries :
    durationCategory 0 = some "0-7 days" ∧
    durationCategory 7 = some "8-15 days" ∧
    durationCategory 15 = some "16-30 days" ∧
    durationCategory 31 = some "31+ days" := by
  decide

/-- Sample record: customer A, 5-day weekly plan in January 2024. -/
def rA : Record := ⟨"A", "Alice", "Weekly", "Daily", ⟨2024, 1, 5⟩, 5, 100⟩

/-- Sample record: a second subscription of customer A in February 2024. -/
def rA2 : Record := ⟨"A", "Alice", "Monthly", "Twice", ⟨2024, 2, 10⟩, 20, 300⟩

/-- Sample record: customer B, January 2024. -/
def rB : Record := ⟨"B", "Bob", "Weekly", "Daily", ⟨2024, 1, 20⟩, 10, 200⟩

/-- Sample record with a 150-day duration, outside every pd.cut bin. -/
def r150 : Record := ⟨"C", "Cara", "Weekly", "Daily", ⟨2024, 3, 1⟩, 150, 500⟩

/-- Criteria with an inverted price range: lower bound above upper bound. -/
def cBad : Criteria := ⟨["Weekly"], ["Daily"], 500, 100⟩

/-- Criteria whose allowed plan-type set is empty. -/
def cEmptyPlans : Criteria := ⟨[], ["Daily"], 0, 1000⟩

/-- Criteria that admit every sample record. -/
def cAll : Criteria := ⟨["Weekly", "Monthly"], ["Daily", "Twice"], 0, 1000⟩

/-- A session holding the two-customer sample with no uploaded file. -/
def sessionA : Session := ⟨[rA, rA2, rB], none⟩

/-- The same bundled data as sessionA but with a file uploaded. -/
def sessionB : Session := ⟨[rA, rA2, rB], some [r150]⟩

/-- A filter splits the length of a list. -/
theorem length_filter_add {α : Type} (p : α → Bool) (l : List α) :
    (l.filter p).length + (l.filter (fun a => !(p a))).length = l.length := by
  induction l with
  | nil => rfl
  | cons x xs ih => cases hx : p x <;> simp [List.filter_cons, hx] <;> omega

/-- Partition counting: summing, over a duplicate-free list of keys that
covers the image of f, the number of elements mapped to each key gives the
length of the list. -/
theorem sum_filter_lengths {α κ : Type} [DecidableEq κ] (f : α → κ) :
    ∀ (keys : List κ) (l : List α), keys.Nodup → (∀ x ∈ l, f x ∈ keys) →
      (keys.map (fun k => (l.filter (fun x => f x = k)).length)).sum = l.length := by
  intro keys
  induction keys with
  | nil =>
    intro l _ hcov
    cases l with
    | nil => rfl
    | cons y ys => exact absurd (hcov y (List.mem_cons_self y ys)) (List.not_mem_nil _)
  | cons k ks ih =>
    intro l hnd hcov
    have hks : k ∉ ks := (List.nodup_cons.mp hnd).1
    have hnd2 : ks.Nodup := (List.nodup_cons.mp hnd).2
    have hcov2 : ∀ x ∈ l.filter (fun x => !(decide (f x = k))), f x ∈ ks := by
      intro x hx
      have hxl : x ∈ l := (List.mem_filter.mp hx).1
      have hnk : ¬(f x = k) := by
        have := (List.mem_filter.mp hx).2
        simpa using this
      exact (List.mem_cons.mp (hcov x hxl)).resolve_left hnk
    have hmap : ks.map (fun k2 => (l.filter (fun x => f x = k2)).length)
        = ks.map (fun k2 => ((l.filter (fun x => !(decide (f x = k)))).filter
            (fun x => f x = k2)).length) := by
      apply List.map_congr_left
      intro k2 hk2
      have hne : k2 ≠ k := fun he => hks (he ▸ hk2)
      rw [List.filter_filter]
      congr 1
      apply List.filter_congr
      intro x _
      by_cases hfx : f x = k2
      · simp [hfx, hne]
      · simp [hfx]
    simp only [List.map_cons, List.sum_cons]
    rw [hmap, ih _ hnd2 hcov2]
    exact length_filter_add (fun x => decide (f x = k)) l

/-- Double partition counting over two independent key lists. -/
theorem sum_double_filter {α κ₁ κ₂ : Type} [DecidableEq κ₁] [DecidableEq κ₂]
    (f : α → κ₁) (g : α → κ₂) (ks1 : List κ₁) (ks2 : List κ₂) (l : List α)
    (h1 : ks1.Nodup) (h2 : ks2.Nodup)
    (c1 : ∀ x ∈ l, f x ∈ ks1) (c2 : ∀ x ∈ l, g x ∈ ks2) :
    (ks1.map (fun a => (ks2.map (fun b =>
      ((l.filter (fun x => f x = a)).filter (fun x => g x = b)).length)).sum)).sum
      = l.length := by
  have hin : ∀ a ∈ ks1, (ks2.map (fun b =>
      ((l.filter (fun x => f x = a)).filter (fun x => g x = b)).length)).sum
      = (l.filter (fun x => f x = a)).length := by
    intro a _
    exact sum_filter_lengths g ks2 _ h2 (fun x hx => c2 x (List.mem_filter.mp hx).1)
  rw [List.map_congr_left hin]
  exact sum_filter_lengths f ks1 l h1 c1

/-- Sorting the deduplicated values of a string list yields a
strictly-increasing chain. -/
theorem chain_lt_sorted_dedup (l : List String) :
    List.Chain' (fun a b => a < b)
      (List.insertionSort (fun a b => a ≤ b) l.dedup) := by
  have hs : List.Sorted (fun a b => a ≤ b)
      (List.insertionSort (fun a b => a ≤ b) l.dedup) :=
    List.sorted_insertionSort _ _
  have hnd : (List.insertionSort (fun a b => a ≤ b) l.dedup).Nodup :=
    ((List.perm_insertionSort _ _).nodup_iff).mpr (List.nodup_dedup l)
  exact (List.Sorted.lt_of_le hs hnd).chain'

/-- The sorted dedup of a string list is duplicate-free. -/
theorem nodup_sorted_dedup (l : List String) :
    (List.insertionSort (fun a b => a ≤ b) l.dedup).Nodup :=
  ((List.perm_insertionSort _ _).nodup_iff).mpr (List.nodup_dedup l)

/-- Membership in the sorted dedup of a string list. -/
theorem mem_sorted_dedup {a : String} {l : List String} :
    a ∈ List.insertionSort (fun a b => a ≤ b) l.dedup ↔ a ∈ l := by
  rw [List.mem_insertionSort, List.mem_dedup]

/-- C2: filtering is an order-preserving subsequence operation; a record is
kept iff its plan type, meal frequency and total price all pass the
criteria, the price range being inclusive on both bounds; the output is
never longer than the input. -/
theorem filter_subsequence_spec (rs : List Record) (c : Criteria) :
    (filterRecords rs c).Sublist rs ∧
    (filterRecords rs c).length ≤ rs.length ∧
    ∀ r : Record, r ∈ filterRecords rs c ↔
      (r ∈ rs ∧ r.plan_type ∈ c.plan_types ∧ r.meal_frequency ∈ c.meal_frequencies ∧
        c.min_price ≤ r.total_price ∧ r.total_price ≤ c.max_price) := by
  refine ⟨List.filter_sublist rs, List.length_filter_le _ rs, fun r => ?_⟩
  simp [filterRecords, satisfies, List.mem_filter, and_assoc]

/-- C9 counterexample: on an inverted price range the filter does not
raise any error and does not swap the bounds: it silently returns the
empty selection, although the sample record would pass with swapped
bounds. -/
theorem inverted_range_counterexample :
    cBad.min_price > cBad.max_price ∧
    filterRecords [rA] cBad = [] ∧
    filterRecords [rA] ⟨cBad.plan_types, cBad.meal_frequencies, cBad.max_price, cBad.min_price⟩
      = [rA] := by
  decide

/-- C9 amended: for criteria with min_price above max_price the filter
silently returns the empty record list; no record satisfies the inclusive
range and no error is raised. -/
theorem inverted_range_filters_all (rs : List Record) (c : Criteria)
    (h : c.max_price < c.min_price) : filterRecords rs c = [] := by
  unfold filterRecords
  apply List.filter_eq_nil_iff.mpr
  intro r _
  simp only [satisfies, Bool.and_eq_true, decide_eq_true_eq, not_and]
  intro h1 h2
  obtain ⟨-, hmin⟩ := h1
  omega

/-- Witness for inverted_range_filters_all at the sample input. -/
theorem inverted_range_filters_all_witness :
    cBad.max_price < cBad.min_price ∧ filterRecords [rA, rB] cBad = [] :=
  ⟨by decide, inverted_range_filters_all [rA, rB] cBad (by decide)⟩

/-- Shared evaluation: the top10 cell raises KeyError on every input,
because the aggregation produced a column named Total_Spend while
sort_values asks for Total_Spend (INR). -/
theorem top10_keyerror_aux (rs : List Record) :
    top10 rs = Except.error "KeyError: Total_Spend (INR)" := by
  have hc : (top10AggColumns.contains top10SortKey ||
      top10IndexNames.contains top10SortKey) = false := by decide
  unfold top10
  rw [hc]
  rfl

/-- C1: the top-10-by-spend cell never returns a grouped, sorted table:
for every record list it raises KeyError because sort_values names a
column the aggregation did not produce. -/
theorem top10_always_keyerror (rs : List Record) :
    top10 rs = Except.error "KeyError: Total_Spend (INR)" :=
  top10_keyerror_aux rs

/-- C8: with an empty allowed plan-type set the filtered frame is empty,
the KPI views report 0 subscribers, 0 revenue and a NaN-sentinel mean
without raising, but the top-10 view still raises KeyError, so not every
view is well defined. -/
theorem empty_plans_views (rs : List Record) (c : Criteria) (h : c.plan_types = []) :
    filterRecords rs c = [] ∧
    kpiSubscribers (filterRecords rs c) = 0 ∧
    kpiRevenue (filterRecords rs c) = 0 ∧
    kpiMean (filterRecords rs c) = none ∧
    top10 (filterRecords rs c) = Except.error "KeyError: Total_Spend (INR)" := by
  have he : filterRecords rs c = [] := by
    unfold filterRecords
    apply List.filter_eq_nil_iff.mpr
    intro r _
    simp [satisfies, h]
  rw [he]
  exact ⟨rfl, rfl, rfl, rfl, top10_keyerror_aux []⟩

/-- Witness for empty_plans_views at the sample input. -/
theorem empty_plans_views_witness :
    filterRecords [rA, rA2, rB] cEmptyPlans = [] ∧
    kpiSubscribers (filterRecords [rA, rA2, rB] cEmptyPlans) = 0 ∧
    kpiRevenue (filterRecords [rA, rA2, rB] cEmptyPlans) = 0 ∧
    kpiMean (filterRecords [rA, rA2, rB] cEmptyPlans) = none ∧
    top10 (filterRecords [rA, rA2, rB] cEmptyPlans)
      = Except.error "KeyError: Total_Spend (INR)" :=
  empty_plans_views [rA, rA2, rB] cEmptyPlans rfl

/-- C10: the dashboard output never depends on the uploaded file: two
sessions with the same bundled PS_Data.xlsx contents but different upload
widget values render identical views, because load_data reads only the
bundled file. -/
theorem upload_noninterference (s1 s2 : Session) (c : Criteria)
    (h : s1.bundled = s2.bundled) :
    dashboardViews s1 c = dashboardViews s2 c := by
  unfold dashboardViews load_data
  rw [h]

/-- Witness for upload_noninterference: same bundled data, one session
with an uploaded file and one without. -/
theorem upload_noninterference_witness :
    dashboardViews sessionA cAll = dashboardViews sessionB cAll :=
  upload_noninterference sessionA sessionB cAll rfl

/-- C4 counterexample: a record with a 150-day duration gets no duration
category at all, no unbucketed label exists in the revenue-by-duration
view, and the record's 500 of revenue appears in no bucket: it is
silently dropped, not reported under an explicit unbucketed category. -/
theorem unbucketed_counterexample :
    durationCategory 150 = none ∧
    "unbucketed" ∉ (revByDur [r150]).map Prod.fst ∧
    ((revByDur [r150]).map Prod.snd).sum = 0 ∧
    r150.total_price = 500 := by
  decide

/-- C4 amended: a duration of at least 100 days or below 0 receives no
category (NaN) and the revenue-by-duration view only ever carries the four
fixed bin labels, never an unbucketed one, so such records are silently
excluded from the duration views. -/
theorem out_of_range_duration_dropped (d : Int) (h : 100 ≤ d ∨ d < 0) :
    durationCategory d = none ∧
    ∀ rs : List Record, "unbucketed" ∉ (revByDur rs).map Prod.fst := by
  constructor
  · unfold durationCategory
    split_ifs <;> first | rfl | (exfalso; omega)
  · intro rs
    have hl : (revByDur rs).map Prod.fst = durationLabels := rfl
    rw [hl]
    decide

/-- Witness for out_of_range_duration_dropped at a negative duration. -/
theorem out_of_range_duration_dropped_witness :
    durationCategory (-3) = none ∧
    ∀ rs : List Record, "unbucketed" ∉ (revByDur rs).map Prod.fst :=
  out_of_range_duration_dropped (-3) (by decide)

/-- C6: the by_month view over the filtered frame has strictly increasing
month keys, contains only months present in the input, and per month
reports the distinct-customer count and the price sum of that month. -/
theorem by_month_spec (df : List Record) (c : Criteria) :
    List.Chain' (fun a b => a < b) ((byMonth (filterRecords df c)).map Prod.fst) ∧
    (∀ p ∈ byMonth (filterRecords df c), p.1 ∈ (filterRecords df c).map Record.month) ∧
    (∀ p ∈ byMonth (filterRecords df c),
      p.2.1 = kpiSubscribers ((filterRecords df c).filter (fun r => r.month = p.1)) ∧
      p.2.2 = kpiRevenue ((filterRecords df c).filter (fun r => r.month = p.1))) := by
  refine ⟨?_, ?_, ?_⟩
  · have h1 : (byMonth (filterRecords df c)).map Prod.fst
        = monthKeys (filterRecords df c) := by
      unfold byMonth
      rw [List.map_map]
      exact List.map_id _
    rw [h1]
    exact chain_lt_sorted_dedup _
  · intro p hp
    unfold byMonth at hp
    obtain ⟨m, hm, rfl⟩ := List.mem_map.mp hp
    exact mem_sorted_dedup.mp hm
  · intro p hp
    unfold byMonth at hp
    obtain ⟨m, hm, rfl⟩ := List.mem_map.mp hp
    exact ⟨rfl, rfl⟩

/-- The crosstab properties over an arbitrary record list. -/
theorem crosstab_main (rs : List Record) :
    ((crosstabCount rs).map Prod.fst = rowLabels rs) ∧
    (∀ row ∈ crosstabCount rs, row.2.map Prod.fst = colLabels rs) ∧
    (∀ row ∈ crosstabCount rs, ∀ cell ∈ row.2,
      cell.2 = ((rs.filter (fun r => r.plan_type = row.1)).filter
        (fun r => r.meal_frequency = cell.1)).length) ∧
    ((crosstabCount rs).map (fun row => (row.2.map Prod.snd).sum)).sum = rs.length := by
  refine ⟨?_, ?_, ?_, ?_⟩
  · unfold crosstabCount
    rw [List.map_map]
    exact List.map_id _
  · intro row hrow
    unfold crosstabCount at hrow
    obtain ⟨p, hp, rfl⟩ := List.mem_map.mp hrow
    show ((colLabels rs).map (fun m =>
      (m, ((rs.filter (fun r => r.plan_type = p)).filter
        (fun r => r.meal_frequency = m)).length))).map Prod.fst = colLabels rs
    rw [List.map_map]
    exact List.map_id _
  · intro row hrow cell hcell
    unfold crosstabCount at hrow
    obtain ⟨p, hp, rfl⟩ := List.mem_map.mp hrow
    obtain ⟨m, hm, rfl⟩ := List.mem_map.mp hcell
    rfl
  · have hrowlab : (rowLabels rs).Nodup := nodup_sorted_dedup _
    have hcollab : (colLabels rs).Nodup := nodup_sorted_dedup _
    have c1 : ∀ x ∈ rs, x.plan_type ∈ rowLabels rs := fun x hx =>
      mem_sorted_dedup.mpr (List.mem_map_of_mem Record.plan_type hx)
    have c2 : ∀ x ∈ rs, x.meal_frequency ∈ colLabels rs := fun x hx =>
      mem_sorted_dedup.mpr (List.mem_map_of_mem Record.meal_frequency hx)
    have hdouble := sum_double_filter Record.plan_type Record.meal_frequency
      (rowLabels rs) (colLabels rs) rs hrowlab hcollab c1 c2
    simp only [crosstabCount, List.map_map, Function.comp_def]
    exact hdouble

/-- C7: the plan-by-frequency crosstab of the filtered frame is fully
dense over the observed row and column labels, every cell holds the count
of the matching records (0 when none match), and the cells sum to the
number of filtered records. -/
theorem crosstab_dense_sum (df : List Record) (c : Criteria) :
    ((crosstabCount (filterRecords df c)).map Prod.fst = rowLabels (filterRecords df c)) ∧
    (∀ row ∈ crosstabCount (filterRecords df c),
      row.2.map Prod.fst = colLabels (filterRecords df c)) ∧
    (∀ row ∈ crosstabCount (filterRecords df c), ∀ cell ∈ row.2,
      cell.2 = (((filterRecords df c).filter (fun r => r.plan_type = row.1)).filter
        (fun r => r.meal_frequency = cell.1)).length) ∧
    ((crosstabCount (filterRecords df c)).map
      (fun row => (row.2.map Prod.snd).sum)).sum = (filterRecords df c).length :=
  crosstab_main (filterRecords df c)

set_option maxHeartbeats 1000000 in
/-- C5: the cohort view ignores the filter criteria entirely, its bucket
counts sum to the number of distinct customers of the full dataset, and
each customer is counted under exactly one bucket, the month of its
minimum start date. -/
theorem cohort_partition (s : Session) (c c2 : Criteria) (cid : String)
    (h : cid ∈ (s.bundled.map Record.customer_id).dedup) :
    (dashboardViews s c).cohortView = (dashboardViews s c2).cohortView ∧
    ((cohort s.bundled).map Prod.snd).sum
      = ((s.bundled.map Record.customer_id).dedup).length ∧
    ((cohort s.bundled).map Prod.fst).count (cohortMonthOf s.bundled cid) = 1 := by
  refine ⟨rfl, ?_, ?_⟩
  · have hnd : (cohortKeys s.bundled).Nodup := nodup_sorted_dedup _
    have hcov : ∀ p ∈ firstTable s.bundled, monthString p.2 ∈ cohortKeys s.bundled := by
      intro p hp
      exact mem_sorted_dedup.mpr (List.mem_map_of_mem (fun q => monthString q.2) hp)
    calc ((cohort s.bundled).map Prod.snd).sum
        = ((cohortKeys s.bundled).map (fun m =>
            ((firstTable s.bundled).filter (fun p => monthString p.2 = m)).length)).sum := by
          simp only [cohort, List.map_map, Function.comp_def]
      _ = (firstTable s.bundled).length :=
          sum_filter_lengths (fun p => monthString p.2) (cohortKeys s.bundled)
            (firstTable s.bundled) hnd hcov
      _ = ((s.bundled.map Record.customer_id).dedup).length := by
          unfold firstTable custKeys
          rw [List.length_map]
          exact (List.perm_insertionSort _ _).length_eq
  · have hnd : (cohortKeys s.bundled).Nodup := nodup_sorted_dedup _
    have hfst : (cohort s.bundled).map Prod.fst = cohortKeys s.bundled := by
      unfold cohort
      rw [List.map_map]
      exact List.map_id _
    rw [hfst]
    apply List.count_eq_one_of_mem hnd
    apply mem_sorted_dedup.mpr
    apply List.mem_map.mpr
    refine ⟨(cid, firstStart s.bundled cid), ?_, rfl⟩
    unfold firstTable
    apply List.mem_map.mpr
    exact ⟨cid, (List.mem_insertionSort _).mpr h, rfl⟩

/-- Witness for cohort_partition at the sample session and customer A. -/
theorem cohort_partition_witness :
    (dashboardViews sessionA cAll).cohortView = (dashboardViews sessionA cBad).cohortView ∧
    ((cohort sessionA.bundled).map Prod.snd).sum
      = ((sessionA.bundled.map Record.customer_id).dedup).length ∧
    ((cohort sessionA.bundled).map Prod.fst).count (cohortMonthOf sessionA.bundled "A") = 1 :=
  cohort_partition sessionA cAll cBad "A" (by decide)
